import Mathlib

/-!
Verification of the cookdown recipe-conversion pipeline: a shallow embedding
of the parsers (`crumb.py`, `paprika.py`), the parser registry
(`parsers/__init__.py`) and the markdown formatter (`formatter.py`),
together with theorems settling the specification claims.

Python values are modelled explicitly where the dynamic typing matters:
ingredient amounts may be JSON numbers (modelled as `Int`) or strings, and
comparing a string amount with an integer raises a `TypeError`, as in Python.
-/

namespace Cookdown

/-- Dynamic value for ingredient amounts: a JSON number or a string. -/
inductive PyVal where
  | int (n : Int)
  | str (s : String)
deriving DecidableEq, Repr

/-- Python truthiness for amount values: `0` and `""` are falsy. -/
def PyVal.truthy : PyVal → Bool
  | .int n => n != 0
  | .str s => s != ""

/-- Python `str()` of an amount value, as used by the f-string in the formatter. -/
def PyVal.toStr : PyVal → String
  | .int n => toString n
  | .str s => s

/-- Errors the embedded code can raise. -/
inductive PyErr where
  | typeError
  | valueError (msg : String)
  | decodeError
deriving DecidableEq, Repr

/-- Python `amount > 1`: defined for numbers, raises `TypeError` for strings. -/
def pyGtOne : PyVal → Except PyErr Bool
  | .int n => .ok (decide (1 < n))
  | .str _ => .error .typeError

/-! ## String helpers mirroring the Python string methods used by the source -/

/-- Membership of the Python `str.strip()` whitespace set (ASCII fragment). -/
def pyIsSpaceChar (c : Char) : Bool :=
  c = ' ' || c = '\t' || c = '\n' || c = '\x0d' || c = '\x0b' || c = '\x0c'

/-- Python `str.strip()` on a character list. -/
def pyStripList (cs : List Char) : List Char :=
  ((cs.dropWhile pyIsSpaceChar).reverse.dropWhile pyIsSpaceChar).reverse

/-- Python `str.strip()`. -/
def pyStrip (s : String) : String :=
  String.mk (pyStripList s.data)

/-- Python `str.rstrip(':')`: drop all trailing colons. -/
def pyRstripColon (s : String) : String :=
  String.mk ((s.data.reverse.dropWhile (fun c => c = ':')).reverse)

/-- Python `str.isupper()` (ASCII fragment): at least one cased character and
no lowercase cased character. -/
def pyIsUpper (s : String) : Bool :=
  let cased := s.data.filter (fun c => c.isAlpha)
  !cased.isEmpty && cased.all (fun c => c.isUpper)

/-- Python `str.isdigit()` (ASCII fragment). -/
def pyIsDigit (cs : List Char) : Bool :=
  !cs.isEmpty && cs.all (fun c => c.isDigit)

/-- Python `s.replace('.', '', 1)`: remove the first dot, on character lists. -/
def removeFirstDot : List Char → List Char
  | [] => []
  | c :: cs => if c = '.' then cs else c :: removeFirstDot cs

/-- Split a character list at its first occurrence of `sep`, if any. -/
def splitAtFirst (sep : Char) : List Char → Option (List Char × List Char)
  | [] => none
  | c :: cs =>
    if c = sep then some ([], cs)
    else (splitAtFirst sep cs).map (fun p => (c :: p.1, p.2))

/-- Python `s.split(sep, maxsplit)` for a one-character separator: at most
`n` splits, empty fields preserved. -/
def pySplitMax (sep : Char) : Nat → List Char → List (List Char)
  | 0, cs => [cs]
  | n + 1, cs =>
    match splitAtFirst sep cs with
    | none => [cs]
    | some (p, q) => p :: pySplitMax sep n q

/-- Python `s.split(sep)` (unlimited) for a one-character separator. -/
def pySplitAll (sep : Char) (cs : List Char) : List (List Char) :=
  pySplitMax sep cs.length cs

/-- Python `text.split('\n')` on a string, producing the list of lines. -/
def pyLines (s : String) : List String :=
  (pySplitAll '\n' s.data).map String.mk

/-- Whether `pat` occurs as a contiguous substring of `cs`
(Python's `pat in s`). -/
def listContainsSub (pat cs : List Char) : Bool :=
  cs.tails.any (fun t => pat.isPrefixOf t)

/-- Python `pat in s` for strings. -/
def strContainsSub (s pat : String) : Bool :=
  listContainsSub pat.data s.data

/-- Python `str.replace(old, new)` for one-character arguments. -/
def pyReplaceChar (old new : Char) (s : String) : String :=
  String.mk (s.data.map (fun c => if c = old then new else c))

/-- Python `str.lower()` (ASCII fragment). -/
def pyLower (s : String) : String :=
  String.mk (s.data.map Char.toLower)

/-- Python `s.endswith(suffix)`. -/
def pyEndsWith (s suf : String) : Bool :=
  suf.data.isSuffixOf s.data

/-- Python `s.startswith(pre)`. -/
def pyStartsWith (s pre : String) : Bool :=
  pre.data.isPrefixOf s.data

/-- Sanitizer `re.sub(r"[^a-zA-Z0-9]", "_", name)` used for filenames. -/
def sanitizeName (s : String) : String :=
  String.mk (s.data.map (fun c => if c.isAlphanum then c else '_'))

/-! ## Canonical schema (the normalized dictionaries passed to the formatter) -/

/-- Normalized ingredient produced by every parser. -/
structure Ingredient where
  name : String
  amount : PyVal
  unit : String
deriving DecidableEq, Repr

/-- Normalized instruction step produced by every parser. -/
structure Step where
  text : String
  is_section : Bool
  section_name : Option String
deriving DecidableEq, Repr

/-- Image format tag. -/
inductive ImageFormat where
  | base64
  | url
deriving DecidableEq, Repr

/-- Normalized image entry produced by every parser. -/
structure ImageData where
  data : String
  filename : String
  format : ImageFormat
deriving DecidableEq, Repr

/-! ## formatter.format_ingredients -/

/-- Python truthiness of an optional string (`None` and `""` are falsy). -/
def optStrTruthy : Option String → Bool
  | none => false
  | some s => s != ""

/-- Body of the loop in `format_ingredients` (formatter.py lines 29-49):
formats one normalized ingredient, raising `TypeError` when a string amount
is compared with `1`. -/
def formatIngredientItem (item : Ingredient) : Except PyErr String :=
  if item.amount.truthy && (item.unit != "") then do
    let unitLower := pyLower item.unit
    let gt ← pyGtOne item.amount
    let unitLower :=
      if gt && (unitLower != "pound") && !(pyEndsWith unitLower "s") then
        unitLower ++ "s"
      else unitLower
    pure (item.amount.toStr ++ " " ++ unitLower ++ " " ++ item.name)
  else
    pure item.name

/-- Embedding of `format_ingredients` (formatter.py lines 17-51): the loop formats each
item in order and aborts the whole call when any item raises. -/
def format_ingredients : List Ingredient → Except PyErr (List String)
  | [] => .ok []
  | i :: rest => do
    let s ← formatIngredientItem i
    let others ← format_ingredients rest
    pure (s :: others)

/-! ## formatter.format_instructions -/

/-- Lines contributed by one step in the loop of `format_instructions`
(formatter.py lines 66-76): a heading when `section_name` is truthy, then
always a `1. `-marked item. -/
def stepLines (step : Step) : List String :=
  (if optStrTruthy step.section_name then
    ["### " ++ step.section_name.getD ""]
  else []) ++ ["1. " ++ step.text]

/-- Embedding of `format_instructions` (formatter.py lines 54-78). -/
def format_instructions (instructions : List Step) : String :=
  String.intercalate "\n" (instructions.foldl (fun acc st => acc ++ stepLines st) [])

/-! ## base64 decoding (CPython `binascii.a2b_base64`, non-strict mode)

`formatter.save_image` calls `base64.b64decode`, which (for `str` input)
encodes as ASCII and then runs the non-strict `a2b_base64` loop: characters
outside the base64 alphabet are skipped, a padding character closes the
stream once at least two data characters of the current quad have been seen,
and leftover quad positions 1, 2 or 3 at the end raise `binascii.Error`. -/

/-- Value of a base64 alphabet character, `none` for characters outside it. -/
def b64Val (c : Char) : Option Nat :=
  if 'A' ≤ c && c ≤ 'Z' then some (c.toNat - 65)
  else if 'a' ≤ c && c ≤ 'z' then some (c.toNat - 97 + 26)
  else if '0' ≤ c && c ≤ '9' then some (c.toNat - 48 + 52)
  else if c = '+' then some 62
  else if c = '/' then some 63
  else none

/-- The `a2b_base64` decoding loop (non-strict): state is the position inside
the current quad, the pending bits, the running pad count and the output
accumulated in reverse. -/
def a2bLoop : List Char → Nat → Nat → Nat → List Nat → Except PyErr (List Nat)
  | [], quadPos, _, _, out =>
    if quadPos = 0 then .ok out.reverse else .error .decodeError
  | c :: rest, quadPos, leftchar, pads, out =>
    if c = '=' then
      if quadPos ≥ 2 then
        if quadPos + (pads + 1) ≥ 4 then .ok out.reverse
        else a2bLoop rest quadPos leftchar (pads + 1) out
      else a2bLoop rest quadPos leftchar pads out
    else
      match b64Val c with
      | none => a2bLoop rest quadPos leftchar pads out
      | some v =>
        match quadPos with
        | 0 => a2bLoop rest 1 v 0 out
        | 1 => a2bLoop rest 2 (v % 16) 0 ((leftchar * 4 + v / 16) :: out)
        | 2 => a2bLoop rest 3 (v % 4) 0 ((leftchar * 16 + v / 4) :: out)
        | _ => a2bLoop rest 0 0 0 ((leftchar * 64 + v) :: out)

/-- Python `base64.b64decode` on a `str` argument: ASCII check, then the
non-strict decoding loop. -/
def pyB64Decode (s : String) : Except PyErr (List Nat) :=
  if s.data.all (fun c => c.toNat < 128) then a2bLoop s.data 0 0 0 []
  else .error (.valueError "string argument should contain only ASCII characters")

/-- Record of one image file actually written by `save_image`
(formatter.py lines 81-108): the source entry, the relative path returned,
and the decoded bytes written. -/
structure SavedImage where
  src : ImageData
  relpath : String
  bytes : List Nat
deriving DecidableEq, Repr

/-- Embedding of `save_image` (formatter.py lines 81-108), as the file it writes (if any):
URL-format entries and failed decodes produce nothing (the function returns
`""` and the caller drops it). -/
def saveImage (img : ImageData) : Option SavedImage :=
  match img.format with
  | .base64 =>
    match pyB64Decode img.data with
    | .ok bytes => some ⟨img, "images/" ++ img.filename, bytes⟩
    | .error _ => none
  | .url => none

/-! ## Crouton `.crumb` parser (`parsers/crumb.py`) -/

/-- Raw `.crumb` ingredient entry: `order` (may be absent), the nested
`ingredient.name` and `quantity.amount` / `quantity.quantityType` fields,
with the Python `get` defaults already folded into absent sub-mappings. -/
structure CrumbIngredient where
  order : Option Int
  ingredientName : String
  amount : PyVal
  quantityType : String
deriving DecidableEq, Repr

/-- Raw `.crumb` step entry. -/
structure CrumbStep where
  order : Option Int
  step : String
  isSection : Bool
deriving DecidableEq, Repr

/-- Raw `.crumb` recipe mapping (fields used by the parser, with `get`
defaults folded in for the scalar fields). -/
structure CrumbRecipe where
  name : String := "Unnamed Recipe"
  ingredients : List CrumbIngredient := []
  steps : List CrumbStep := []
  images : List String := []
  webLink : String := ""
  cookingDuration : Int := 0
  prepDuration : Int := 0
  serves : PyVal := .str ""
  notes : String := ""
  neutritionalInfo : String := ""
deriving DecidableEq, Repr

/-- Sort key `x.get("order", 0)` used by the crumb parser. -/
def crumbIngKey (x : CrumbIngredient) : Int := x.order.getD 0

/-- Sort key `x.get("order", 0)` for steps. -/
def crumbStepKey (x : CrumbStep) : Int := x.order.getD 0

/-- Python `sorted(l, key=...)` with integer keys: Python's sort is stable,
embedded here as a stable insertion sort (each element is inserted before
the first already-placed element with a key not smaller than its own). -/
def pySortedByKey {α : Type} (key : α → Int) (l : List α) : List α :=
  List.insertionSort (fun a b => key a ≤ key b) l

/-- Normalization of one sorted crumb ingredient entry
(crumb.py lines 63-74). -/
def normalizeCrumbIngredient (item : CrumbIngredient) : Ingredient :=
  { name := item.ingredientName, amount := item.amount, unit := item.quantityType }

/-- Embedding of `CrumbParser.get_ingredients` (crumb.py lines 47-76). -/
def crumb_get_ingredients (r : CrumbRecipe) : List Ingredient :=
  (pySortedByKey crumbIngKey r.ingredients).map normalizeCrumbIngredient

/-- Scan for the closing `**` of the lazy group in `r"^\*\*(.*?)\*\*\s*"`:
returns the group text and the remainder after the closing delimiter.
`.` does not match a newline, so the scan fails upon one. -/
def findCloseStars : List Char → Option (List Char × List Char)
  | '*' :: '*' :: rest => some ([], rest)
  | c :: rest =>
    if c = '\n' then none
    else (findCloseStars rest).map (fun p => (c :: p.1, p.2))
  | [] => none

/-- Match of `r"^\*\*(.*?)\*\*\s*"` at the start of a step text: the section
name and the text with the matched span removed (`\s*` is greedy). -/
def sectionMarkSplit (s : String) : Option (String × String) :=
  match s.data with
  | '*' :: '*' :: rest =>
    (findCloseStars rest).map
      (fun p => (String.mk p.1, String.mk (p.2.dropWhile pyIsSpaceChar)))
  | _ => none

/-- Normalization of one sorted crumb step entry (crumb.py lines 95-113). -/
def normalizeCrumbStep (st : CrumbStep) : Step :=
  match sectionMarkSplit st.step with
  | some (sn, rest) =>
    { text := rest, is_section := true, section_name := some sn }
  | none =>
    { text := st.step, is_section := st.isSection, section_name := none }

/-- Embedding of `CrumbParser.get_instructions` (crumb.py lines 79-115). -/
def crumb_get_instructions (r : CrumbRecipe) : List Step :=
  (pySortedByKey crumbStepKey r.steps).map normalizeCrumbStep

/-- The truncation sentinel string checked by the crumb parser. -/
def truncSentinel : String := "truncated for LLM context"

/-- Embedding of `CrumbParser.get_images` (crumb.py lines 118-140): keeps non-empty
entries that do not contain the truncation sentinel, with filenames indexed
by the position in the raw list. -/
def crumb_get_images (r : CrumbRecipe) : List ImageData :=
  r.images.enum.filterMap (fun p =>
    if p.2 != "" && !(strContainsSub p.2 truncSentinel) then
      some { data := p.2,
             filename := sanitizeName r.name ++ "_" ++ toString p.1 ++ ".jpg",
             format := .base64 }
    else none)

/-- Metadata fields of the parsed recipe that the conversion pipeline
consumes downstream. -/
structure Metadata where
  source_url : String
  cook_time : String
  difficulty : String
  servings : PyVal
  notes : String
  nutrition_info : String
deriving DecidableEq, Repr

/-- Embedding of `CrumbParser.get_metadata` (crumb.py lines 143-163), restricted to the
fields the conversion pipeline reads. -/
def crumb_get_metadata (r : CrumbRecipe) : Metadata :=
  { source_url := r.webLink,
    cook_time := toString r.cookingDuration ++ " minutes",
    difficulty := "",
    servings := r.serves,
    notes := r.notes,
    nutrition_info := r.neutritionalInfo }

/-! ## Paprika parser (`parsers/paprika.py`) -/

/-- Raw Paprika recipe mapping (fields used by the parser, with `get`
defaults folded in). -/
structure PaprikaRecipe where
  name : String := "Unnamed Recipe"
  ingredients : String := ""
  directions : String := ""
  photo_data : String := ""
  photo : String := ""
  prep_time : String := "0"
  cook_time : String := "0"
  source_url : String := ""
  servings : String := ""
  notes : String := ""
  nutritional_info : String := ""
  difficulty : String := ""
deriving DecidableEq, Repr

/-- Parsing of one stripped, non-blank ingredient line
(paprika.py lines 165-190): `line.split(' ', 2)` and the
`replace('.', '', 1).isdigit()` number test. -/
def paprikaIngredientLine (t : String) : Ingredient :=
  let parts := pySplitMax ' ' 2 t.data
  if parts.length ≥ 3 && pyIsDigit (removeFirstDot (parts.getD 0 [])) then
    { name := String.mk (parts.getD 2 []),
      amount := .str (String.mk (parts.getD 0 [])),
      unit := String.mk (parts.getD 1 []) }
  else if parts.length ≥ 2 && pyIsDigit (removeFirstDot (parts.getD 0 [])) then
    { name := String.mk (parts.getD 1 []),
      amount := .str (String.mk (parts.getD 0 [])),
      unit := "" }
  else
    { name := t, amount := .str "", unit := "" }

/-- Embedding of `PaprikaParser.get_ingredients` (paprika.py lines 144-192). -/
def paprika_get_ingredients (r : PaprikaRecipe) : List Ingredient :=
  (pyLines r.ingredients).foldl (fun acc line =>
    let t := pyStrip line
    if t = "" then acc else acc ++ [paprikaIngredientLine t]) []

/-- Normalization of one stripped, non-blank direction line
(paprika.py lines 217-240). -/
def paprikaInstructionLine (t : String) : Step :=
  if pyIsUpper t || pyEndsWith t ":" then
    { text := "", is_section := true, section_name := some (pyRstripColon t) }
  else
    { text := t, is_section := false, section_name := none }

/-- Embedding of `PaprikaParser.get_instructions` (paprika.py lines 194-242). -/
def paprika_get_instructions (r : PaprikaRecipe) : List Step :=
  (pyLines r.directions).foldl (fun acc line =>
    let t := pyStrip line
    if t = "" then acc else acc ++ [paprikaInstructionLine t]) []

/-- Embedding of `PaprikaParser.get_images` (paprika.py lines 244-278): a base64 entry
when `photo_data` is truthy, a URL entry only when `photo` is truthy and
`photo_data` is not. -/
def paprika_get_images (r : PaprikaRecipe) : List ImageData :=
  let safeName := pyReplaceChar '/' '_' (pyReplaceChar ' ' '_' r.name)
  (if r.photo_data != "" then
    [{ data := r.photo_data, filename := safeName ++ ".jpg", format := .base64 }]
  else []) ++
  (if r.photo != "" && !(r.photo_data != "") then
    [{ data := r.photo, filename := safeName ++ ".jpg", format := .url }]
  else [])

/-- Python `int(s)` on a string: optional surrounding whitespace, optional
sign, then a non-empty digit run; anything else raises `ValueError`. -/
def pyInt (s : String) : Except PyErr Int :=
  let t := pyStripList s.data
  let core : Except PyErr (Bool × List Char) :=
    match t with
    | '-' :: ds => .ok (true, ds)
    | '+' :: ds => .ok (false, ds)
    | ds => .ok (false, ds)
  match core with
  | .ok (neg, ds) =>
    if pyIsDigit ds then
      let n : Int := Int.ofNat (ds.foldl (fun acc c => acc * 10 + (c.toNat - 48)) 0)
      .ok (if neg then -n else n)
    else .error (.valueError ("invalid literal for int() with base 10: " ++ s))
  | .error e => .error e

/-- Embedding of `int(recipe_data.get(field, "0") or "0")` as used by
`PaprikaParser.get_metadata` (paprika.py lines 296-297). -/
def pyIntOrZero (s : String) : Except PyErr Int :=
  pyInt (if s = "" then "0" else s)

/-- Embedding of `PaprikaParser.get_metadata` (paprika.py lines 280-314), restricted to
the fields the conversion pipeline reads; the `int()` conversions may
raise. -/
def paprika_get_metadata (r : PaprikaRecipe) : Except PyErr Metadata := do
  let _prep ← pyIntOrZero r.prep_time
  let cook ← pyIntOrZero r.cook_time
  pure { source_url := r.source_url,
         cook_time := if cook != 0 then toString cook ++ " minutes" else "",
         difficulty := r.difficulty,
         servings := .str r.servings,
         notes := r.notes,
         nutrition_info := r.nutritional_info }

/-! ## Parser registry (`parsers/__init__.py`) -/

/-- The two concrete parser implementations. -/
inductive ParserKind where
  | crumb
  | paprika
deriving DecidableEq, Repr

/-- Embedding of `register_parser` (parsers/__init__.py lines 13-22): each extension is
lower-cased and mapped to the parser; later registrations shadow earlier
ones (dict overwrite), modelled by consing and first-match lookup. -/
def registerParser (reg : List (String × ParserKind)) (exts : List String)
    (k : ParserKind) : List (String × ParserKind) :=
  exts.foldl (fun r e => (pyLower e, k) :: r) reg

/-- The registry after both parser modules have registered
(crumb.py line 167, paprika.py line 318). -/
def defaultRegistry : List (String × ParserKind) :=
  registerParser (registerParser [] ["crumb"] .crumb)
    ["paprikarecipe", "paprikarecipes"] .paprika

/-- Embedding of `get_parser_for_extension` (parsers/__init__.py lines 24-34): look up
the lower-cased extension, `none` when unregistered. -/
def get_parser_for_extension (reg : List (String × ParserKind))
    (extension : String) : Option ParserKind :=
  reg.lookup (pyLower extension)

/-- Embedding of `get_supported_extensions` (parsers/__init__.py lines 36-43). -/
def get_supported_extensions (reg : List (String × ParserKind)) : List String :=
  (reg.map Prod.fst).dedup

/-- Embedding of `RecipeParser.get_file_extension` (base.py lines 100-111):
`os.path.splitext(filepath)[1][1:]`, the suffix after the last dot, empty
when there is none. -/
def get_file_extension (filepath : String) : String :=
  if filepath.data.contains '.' then
    String.mk ((filepath.data.reverse.takeWhile (fun c => c ≠ '.')).reverse)
  else ""

/-! ## Conversion orchestrator (`formatter.convert_to_markdown`) -/

/-- Recipe data as produced by `parse_file` of either parser. -/
inductive RecipeData where
  | crumb (r : CrumbRecipe)
  | paprika (r : PaprikaRecipe)
deriving DecidableEq, Repr

/-- Everything `convert_to_markdown` produces on success: the markdown
filename, the formatted pieces, the image files written and the `photos:`
frontmatter entries (the relative paths of the saved images, in order). -/
structure ConversionOutput where
  mdFilename : String
  ingredientLines : List String
  directions : String
  savedImages : List SavedImage
  photos : List String
  meta : Metadata
deriving DecidableEq, Repr

/-- Core of `convert_to_markdown` (formatter.py lines 140-210) after the
parser has been resolved and the recipe extracted: format ingredients
(which may raise), format instructions, save images, collect the truthy
relative paths as `photos`. -/
def convertCore (name : String) (ings : List Ingredient) (steps : List Step)
    (imgs : List ImageData) (meta : Metadata) : Except PyErr ConversionOutput := do
  let ingredientLines ← format_ingredients ings
  let directions := format_instructions steps
  let saved := imgs.filterMap saveImage
  pure { mdFilename := sanitizeName name ++ ".md",
         ingredientLines := ingredientLines,
         directions := directions,
         savedImages := saved,
         photos := saved.map (fun s => s.relpath),
         meta := meta }

/-- Dispatch of the resolved parser on the parsed recipe data. -/
def runParserPipeline (k : ParserKind) (d : RecipeData) : Except PyErr ConversionOutput :=
  match k, d with
  | .crumb, .crumb r =>
    convertCore r.name (crumb_get_ingredients r) (crumb_get_instructions r)
      (crumb_get_images r) (crumb_get_metadata r)
  | .paprika, .paprika r => do
    let meta ← paprika_get_metadata r
    convertCore r.name (paprika_get_ingredients r) (paprika_get_instructions r)
      (paprika_get_images r) meta
  | _, _ => .error .decodeError

/-- Embedding of `convert_to_markdown` with no explicit parser class
(formatter.py lines 111-214): resolve the parser from the file extension,
raising `ValueError` when none is registered; an error means no markdown
file and no image file is produced. -/
def convert_to_markdown (reg : List (String × ParserKind)) (filepath : String)
    (d : RecipeData) : Except PyErr ConversionOutput :=
  match get_parser_for_extension reg (get_file_extension filepath) with
  | none =>
    .error (.valueError ("No parser found for file extension: "
      ++ get_file_extension filepath))
  | some k => runParserPipeline k d

/-! ## Spec-side comparison definitions

These definitions follow the specification's words (not the source) and are
only used to compare the spec's claims against the embedded code. -/

/-- Spec's pluralization rule read literally: append `"s"` to the unit
exactly when the amount exceeds 1, unless the unit is the literal string
`"pound"` or already ends in `"s"`; otherwise the unit is unchanged. -/
def specC1LiteralUnit (n : Int) (unit : String) : String :=
  if decide (1 < n) && (unit != "pound") && !(pyEndsWith unit "s") then unit ++ "s"
  else unit

/-- Amended pluralization rule: the unit is first lower-cased, and the
`"pound"` / trailing-`"s"` exceptions are checked on the lower-cased unit. -/
def specC1LowerUnit (n : Int) (unit : String) : String :=
  let u := pyLower unit
  if decide (1 < n) && (u != "pound") && !(pyEndsWith u "s") then u ++ "s"
  else u

/-- Amended rendering of one step: a level-3 heading when the section name
is present and non-empty, then always one `1. `-marked line, even when the
step text is empty. -/
def specC3StepRender (st : Step) : List String :=
  (match st.section_name with
   | some sn => if sn = "" then [] else ["### " ++ sn]
   | none => []) ++ ["1. " ++ st.text]

/-! ## C1 -/

/-- C1 (counterexample): with amount 2 and unit `"Pound"` the code renders
`"2 pound beef"` — the unit is lower-cased and not pluralized — while the
claim, which excepts only the literal unit `"pound"`, requires the unit to
be pluralized unchanged in case, i.e. `"2 Pounds beef"`. -/
theorem claim_c1_counterexample :
    formatIngredientItem ⟨"beef", .int 2, "Pound"⟩ = .ok "2 pound beef"
    ∧ (PyVal.int 2).toStr ++ " " ++ specC1LiteralUnit 2 "Pound" ++ " " ++ "beef"
        = "2 Pounds beef"
    ∧ ("2 pound beef" : String) ≠ "2 Pounds beef" := by
  refine ⟨rfl, rfl, by decide⟩

/-- C1 (amended): for a numeric, non-zero amount and a non-empty unit, the
rendered string is the amount, the lower-cased unit pluralized exactly when
the amount exceeds 1 — unless the lower-cased unit is `"pound"` or already
ends in `"s"` — and the name. -/
theorem claim_c1_amended (name : String) (n : Int) (unit : String)
    (h1 : n ≠ 0) (h2 : unit ≠ "") :
    formatIngredientItem ⟨name, .int n, unit⟩ =
      .ok ((PyVal.int n).toStr ++ " " ++ specC1LowerUnit n unit ++ " " ++ name) := by
  unfold formatIngredientItem
  split
  · rfl
  · next hcond =>
    exfalso
    simp [PyVal.truthy, h1, h2] at hcond

/-- C1 witness: amount 2 with unit `"cup"` renders as `"2 cups flour"`. -/
theorem claim_c1_amended_witness :
    formatIngredientItem ⟨"flour", PyVal.int 2, "cup"⟩ =
      .ok ((PyVal.int 2).toStr ++ " " ++ specC1LowerUnit 2 "cup" ++ " " ++ "flour") :=
  claim_c1_amended "flour" 2 "cup" (by decide) (by decide)

/-! ## C3 -/

/-- Folding appended blocks equals a single bind. -/
theorem foldl_append_eq_bind {α β : Type} (h : α → List β) :
    ∀ (l : List α) (acc : List β),
      l.foldl (fun a x => a ++ h x) acc = acc ++ l.flatMap h := by
  intro l
  induction l with
  | nil => simp
  | cons a t ih => intro acc; simp [List.foldl_cons, ih, List.append_assoc]

/-- C3 (counterexample): a section step whose text is empty renders as
`"### Prep\n1. "` — it does get a numbered ordered-list line — while the
claim requires no numbered line for it, i.e. just `"### Prep"`. -/
theorem claim_c3_counterexample :
    format_instructions [{ text := "", is_section := true, section_name := some "Prep" }]
        = "### Prep\n1. "
    ∧ ((pyLines "### Prep\n1. ").any (fun l => pyStartsWith l "1. ") = true)
    ∧ ("### Prep\n1. " : String) ≠ "### Prep" := by
  refine ⟨rfl, by decide, by decide⟩

/-- C3 (amended): every step — including one whose text is empty after
section-name extraction — emits one `1. `-marked line; a section heading is
emitted before it when the section name is present and non-empty. -/
theorem claim_c3_amended (instructions : List Step) :
    format_instructions instructions =
      String.intercalate "\n" (instructions.flatMap specC3StepRender) := by
  have hstep : ∀ st : Step, stepLines st = specC3StepRender st := by
    intro st
    cases h : st.section_name with
    | none => simp [stepLines, specC3StepRender, optStrTruthy, h]
    | some sn =>
      by_cases hsn : sn = "" <;>
        simp [stepLines, specC3StepRender, optStrTruthy, h, hsn]
  unfold format_instructions
  rw [foldl_append_eq_bind]
  simp only [List.nil_append]
  congr 1
  exact List.flatMap_congr (fun st _ => hstep st)

/-- C3 witness: the amended rendering at a section step with empty text. -/
theorem claim_c3_amended_witness :
    format_instructions [{ text := "", is_section := true, section_name := some "Prep" }]
      = String.intercalate "\n"
          ([{ text := "", is_section := true, section_name := some "Prep" }].flatMap
            specC3StepRender) :=
  claim_c3_amended [{ text := "", is_section := true, section_name := some "Prep" }]

/-! ## C10 -/

/-- C10 (confirmed): an ingredient whose amount is the empty string or whose
unit is empty renders as just the name; in particular the flat-text line
`"2 eggs"` parses to amount `"2"`, empty unit, name `"eggs"`, and renders as
`"eggs"` — the amount is dropped. -/
theorem claim_c10_empty_amount_or_unit :
    (∀ i : Ingredient, (i.amount = .str "" ∨ i.unit = "") →
      formatIngredientItem i = .ok i.name)
    ∧ paprika_get_ingredients { ingredients := "2 eggs" } =
        [{ name := "eggs", amount := .str "2", unit := "" }]
    ∧ format_ingredients [{ name := "eggs", amount := .str "2", unit := "" }] =
        .ok ["eggs"] := by
  refine ⟨?_, by decide, rfl⟩
  intro i h
  rcases h with h | h <;>
    simp [formatIngredientItem, h, PyVal.truthy, pure, Except.pure]

/-- C10 witness: the rendered string for amount `"2"`, empty unit, name
`"eggs"` is exactly `"eggs"`. -/
theorem claim_c10_witness :
    formatIngredientItem { name := "eggs", amount := .str "2", unit := "" } =
      .ok "eggs" :=
  claim_c10_empty_amount_or_unit.1
    { name := "eggs", amount := .str "2", unit := "" } (Or.inr rfl)

/-! ## C4 -/

/-- Folding line-filtered appends equals a single `filterMap` over the
lines. -/
theorem line_fold_filterMap {β : Type} (g : String → β) :
    ∀ (ls : List String) (acc : List β),
      ls.foldl (fun acc line =>
          let t := pyStrip line
          if t = "" then acc else acc ++ [g t]) acc
        = acc ++ ls.filterMap (fun line =>
            let t := pyStrip line
            if t = "" then none else some (g t)) := by
  intro ls
  induction ls with
  | nil => simp
  | cons a l ih =>
    intro acc
    by_cases h : pyStrip a = "" <;>
      simp [List.foldl_cons, h, ih, List.append_assoc]

/-- Embedding of `pySplitMax` with at most `n` splits yields at most `n + 1` fields. -/
theorem pySplitMax_length (sep : Char) :
    ∀ (n : Nat) (cs : List Char), (pySplitMax sep n cs).length ≤ n + 1 := by
  intro n
  induction n with
  | zero => intro cs; simp [pySplitMax]
  | succ m ih =>
    intro cs
    unfold pySplitMax
    cases h : splitAtFirst sep cs with
    | none => simp
    | some p => simpa using Nat.succ_le_succ (ih p.2)

/-- The spec's ingredient-line rule read literally: split the trimmed line
on WHITESPACE into at most 3 tokens (token 1, token 2, and the remainder);
a leading decimal token with a third token present gives amount/unit/name,
a leading decimal token with exactly one further token gives amount and
name with empty unit, anything else makes the whole line the name. -/
def specC4WhitespaceParse (t : String) : Ingredient :=
  let s0 := t.data.dropWhile pyIsSpaceChar
  let w1 := s0.takeWhile (fun c => !pyIsSpaceChar c)
  let r1 := (s0.drop w1.length).dropWhile pyIsSpaceChar
  let w2 := r1.takeWhile (fun c => !pyIsSpaceChar c)
  let rest := (r1.drop w2.length).dropWhile pyIsSpaceChar
  if pyIsDigit (removeFirstDot w1) then
    if !rest.isEmpty then
      { name := String.mk rest, amount := .str (String.mk w1), unit := String.mk w2 }
    else if !w2.isEmpty then
      { name := String.mk w2, amount := .str (String.mk w1), unit := "" }
    else { name := t, amount := .str "", unit := "" }
  else { name := t, amount := .str "", unit := "" }

/-- Amended ingredient-line rule: the line is split on SINGLE SPACE
characters with at most 2 splits, so consecutive spaces produce empty
fields; a leading decimal field (digits after removing at most one dot)
with three fields present gives amount/unit/name — the unit may be the
empty field — a leading decimal field with exactly two fields gives amount
and name with empty unit, anything else makes the whole line the name. -/
def specC4SingleSpaceParse (t : String) : Ingredient :=
  match pySplitMax ' ' 2 t.data with
  | [a, b, c] =>
    if pyIsDigit (removeFirstDot a) then
      { name := String.mk c, amount := .str (String.mk a), unit := String.mk b }
    else { name := t, amount := .str "", unit := "" }
  | [a, b] =>
    if pyIsDigit (removeFirstDot a) then
      { name := String.mk b, amount := .str (String.mk a), unit := "" }
    else { name := t, amount := .str "", unit := "" }
  | _ => { name := t, amount := .str "", unit := "" }

/-- The embedded line parser agrees with the amended rule. -/
theorem paprikaIngredientLine_eq_spec (t : String) :
    paprikaIngredientLine t = specC4SingleSpaceParse t := by
  have hlen := pySplitMax_length ' ' 2 t.data
  unfold paprikaIngredientLine specC4SingleSpaceParse
  rcases h : pySplitMax ' ' 2 t.data with _ | ⟨a, _ | ⟨b, _ | ⟨c, rest⟩⟩⟩
  · simp [h]
  · simp [h]
  · simp [h]
  · rw [h] at hlen
    have hrest : rest = [] := by
      simp only [List.length_cons] at hlen
      exact List.eq_nil_of_length_eq_zero (by omega)

    subst hrest
    by_cases hd : pyIsDigit (removeFirstDot a) <;> simp [h, hd]

/-- C4 (counterexample): the line `"1  cup flour"` — two spaces after the
number — parses to amount `"1"`, EMPTY unit and name `"cup flour"`,
because the code splits on single spaces and the double space yields an
empty second field; the claim's whitespace-splitting rule instead requires
amount `"1"`, unit `"cup"`, name `"flour"`. -/
theorem claim_c4_counterexample :
    paprika_get_ingredients { ingredients := "1  cup flour" } =
      [{ name := "cup flour", amount := .str "1", unit := "" }]
    ∧ specC4WhitespaceParse "1  cup flour" =
        { name := "flour", amount := .str "1", unit := "cup" }
    ∧ ({ name := "cup flour", amount := PyVal.str "1", unit := "" } : Ingredient)
        ≠ { name := "flour", amount := .str "1", unit := "cup" } := by
  refine ⟨rfl, rfl, by decide⟩

/-- C4 (amended): each non-blank trimmed line of the flat-text ingredient
block is parsed by the single-space splitting rule, in literal line
order. -/
theorem claim_c4_amended (raw : PaprikaRecipe) :
    paprika_get_ingredients raw =
      (pyLines raw.ingredients).filterMap (fun line =>
        let t := pyStrip line
        if t = "" then none else some (specC4SingleSpaceParse t)) := by
  unfold paprika_get_ingredients
  rw [line_fold_filterMap paprikaIngredientLine]
  simp only [List.nil_append]
  apply List.filterMap_congr
  intro line _
  by_cases h : pyStrip line = "" <;>
    simp [h, paprikaIngredientLine_eq_spec]

/-- C4 witness: the amended rule applied to a concrete block. -/
theorem claim_c4_amended_witness :
    paprika_get_ingredients { ingredients := "1 cup flour\n\n2 eggs" } =
      (pyLines ("1 cup flour\n\n2 eggs" : String)).filterMap (fun line =>
        let t := pyStrip line
        if t = "" then none else some (specC4SingleSpaceParse t)) :=
  claim_c4_amended { ingredients := "1 cup flour\n\n2 eggs" }

/-! ## C6 -/

/-- C6 (confirmed): a trimmed non-blank direction line becomes a section
step exactly when it is entirely upper-case (Python `isupper`) or ends with
a colon, with the section name the line less all trailing colons; every
other non-blank line becomes a regular step, in literal line order. -/
theorem claim_c6_section_detection (raw : PaprikaRecipe) :
    paprika_get_instructions raw =
      (pyLines raw.directions).filterMap (fun line =>
        let t := pyStrip line
        if t = "" then none
        else if pyIsUpper t || pyEndsWith t ":" then
          some { text := "", is_section := true, section_name := some (pyRstripColon t) }
        else
          some { text := t, is_section := false, section_name := none }) := by
  unfold paprika_get_instructions
  rw [line_fold_filterMap paprikaInstructionLine]
  simp only [List.nil_append]
  apply List.filterMap_congr
  intro line _
  by_cases h : pyStrip line = ""
  · simp [h]
  · by_cases hc : (pyIsUpper (pyStrip line) || pyEndsWith (pyStrip line) ":") = true <;>
      simp [h, hc, paprikaInstructionLine]

/-- C6 witness: the section rule applied to a concrete direction block. -/
theorem claim_c6_witness :
    paprika_get_instructions { directions := "PREPARATION:\nMix the dough.\nBake:" } =
      (pyLines ("PREPARATION:\nMix the dough.\nBake:" : String)).filterMap (fun line =>
        let t := pyStrip line
        if t = "" then none
        else if pyIsUpper t || pyEndsWith t ":" then
          some { text := "", is_section := true, section_name := some (pyRstripColon t) }
        else
          some { text := t, is_section := false, section_name := none }) :=
  claim_c6_section_detection { directions := "PREPARATION:\nMix the dough.\nBake:" }

/-! ## C7 -/

/-- C7 (counterexample): the resolver returns no parser for `"txt"` and the
orchestrator raises `ValueError: No parser found for file extension: txt` —
but that message does not list the supported extensions: `"crumb"` is a
registered extension and does not occur in the message. -/
theorem claim_c7_counterexample :
    get_parser_for_extension defaultRegistry "txt" = none
    ∧ convert_to_markdown defaultRegistry "recipe.txt" (.crumb {}) =
        .error (.valueError "No parser found for file extension: txt")
    ∧ "crumb" ∈ get_supported_extensions defaultRegistry
    ∧ strContainsSub "No parser found for file extension: txt" "crumb" = false := by
  exact ⟨rfl, rfl, by decide, rfl⟩

/-- C7 (amended): for every file whose extension has no registered parser,
the resolver returns no parser and the conversion fails with a `ValueError`
naming the extension (the message does not list the supported set),
producing no output. -/
theorem claim_c7_amended (reg : List (String × ParserKind)) (fp : String)
    (d : RecipeData)
    (h : get_parser_for_extension reg (get_file_extension fp) = none) :
    convert_to_markdown reg fp d =
      .error (.valueError ("No parser found for file extension: "
        ++ get_file_extension fp)) := by
  simp only [convert_to_markdown, h]

/-- C7 witness: the unsupported-extension failure at `recipe.txt`. -/
theorem claim_c7_amended_witness :
    convert_to_markdown defaultRegistry "recipe.txt" (.crumb {}) =
      .error (.valueError ("No parser found for file extension: "
        ++ get_file_extension "recipe.txt")) :=
  claim_c7_amended defaultRegistry "recipe.txt" (.crumb {}) rfl

/-! ## C8 -/

/-- C8 (confirmed): the flat-text parser yields at most one image — a
base64 image exactly when the base64 field is non-empty, and a URL image
exactly when the base64 field is empty and the URL field non-empty. -/
theorem claim_c8_at_most_one_image (r : PaprikaRecipe) :
    (paprika_get_images r).length ≤ 1
    ∧ ((∃ img ∈ paprika_get_images r, img.format = .base64) ↔ r.photo_data ≠ "")
    ∧ ((∃ img ∈ paprika_get_images r, img.format = .url)
        ↔ (r.photo_data = "" ∧ r.photo ≠ "")) := by
  by_cases h1 : r.photo_data = "" <;> by_cases h2 : r.photo = "" <;>
    simp [paprika_get_images, h1, h2]

/-- C8 witness: a recipe carrying both fields still yields at most one
image. -/
theorem claim_c8_witness :
    (paprika_get_images
      { name := "R", photo_data := "QUJD", photo := "http" }).length ≤ 1 :=
  (claim_c8_at_most_one_image
    { name := "R", photo_data := "QUJD", photo := "http" }).1

/-! ## C9 -/

/-- Binding a successful `Except` computation. -/
theorem except_bind_ok {α β : Type} (a : α) (f : α → Except PyErr β) :
    (Except.ok a >>= f) = f a := rfl

/-- Binding a failed `Except` computation. -/
theorem except_bind_error {α β : Type} (e : PyErr) (f : α → Except PyErr β) :
    ((Except.error e : Except PyErr α) >>= f) = .error e := rfl

/-- The only error `formatIngredientItem` can produce is `TypeError`. -/
theorem formatItem_cases (i : Ingredient) :
    (∃ s, formatIngredientItem i = .ok s)
    ∨ formatIngredientItem i = .error .typeError := by
  unfold formatIngredientItem
  split
  · cases i.amount with
    | int n => exact Or.inl ⟨_, rfl⟩
    | str s => exact Or.inr rfl
  · exact Or.inl ⟨_, rfl⟩

/-- A non-empty string amount together with a non-empty unit makes the
pluralization comparison raise `TypeError`. -/
theorem formatItem_str_error (i : Ingredient) (s : String)
    (h1 : i.amount = .str s) (h2 : s ≠ "") (h3 : i.unit ≠ "") :
    formatIngredientItem i = .error .typeError := by
  obtain ⟨nm, amount, u⟩ := i
  simp only at h1 h3
  subst h1
  unfold formatIngredientItem
  split
  · rfl
  · next hcond =>
    exfalso
    apply hcond
    simp [PyVal.truthy, h2, h3]

/-- Any ingredient list containing a non-empty string amount with a
non-empty unit makes `format_ingredients` fail with `TypeError`. -/
theorem format_ingredients_str_error :
    ∀ ings : List Ingredient,
      (∃ i ∈ ings, (∃ s, i.amount = .str s ∧ s ≠ "") ∧ i.unit ≠ "") →
      format_ingredients ings = .error .typeError := by
  intro ings
  induction ings with
  | nil => rintro ⟨i, hi, -⟩; cases hi
  | cons a l ih =>
    rintro ⟨i, hi, hstr, hunit⟩
    rcases List.mem_cons.mp hi with rfl | hmem
    · obtain ⟨s, hs, hne⟩ := hstr
      have ha := formatItem_str_error i s hs hne hunit
      simp [format_ingredients, ha, except_bind_error]
    · rcases formatItem_cases a with ⟨s, hok⟩ | herr
      · have htail := ih ⟨i, hmem, hstr, hunit⟩
        simp [format_ingredients, hok, except_bind_ok, htail, except_bind_error]
      · simp [format_ingredients, herr, except_bind_error]

/-- C9 (confirmed): the flat-text parser normalizes a line such as
`"1 cup flour"` into a STRING amount with a non-empty unit; formatting any
ingredient list containing such an entry raises `TypeError`, so converting
any flat-text recipe containing such a line fails and produces no markdown
file. -/
theorem claim_c9_string_amount_type_error :
    paprika_get_ingredients { ingredients := "1 cup flour" } =
      [{ name := "flour", amount := .str "1", unit := "cup" }]
    ∧ (∀ ings : List Ingredient,
        (∃ i ∈ ings, (∃ s, i.amount = .str s ∧ s ≠ "") ∧ i.unit ≠ "") →
        format_ingredients ings = .error .typeError)
    ∧ (∀ (fp : String) (raw : PaprikaRecipe),
        (∃ i ∈ paprika_get_ingredients raw,
          (∃ s, i.amount = .str s ∧ s ≠ "") ∧ i.unit ≠ "") →
        ∃ e, convert_to_markdown defaultRegistry fp (.paprika raw) = .error e) := by
  refine ⟨rfl, format_ingredients_str_error, ?_⟩
  intro fp raw hex
  unfold convert_to_markdown
  cases hres : get_parser_for_extension defaultRegistry (get_file_extension fp) with
  | none => exact ⟨_, rfl⟩
  | some k =>
    cases k with
    | crumb => exact ⟨.decodeError, rfl⟩
    | paprika =>
      cases hm : paprika_get_metadata raw with
      | error e =>
        exact ⟨e, by simp [runParserPipeline, hm, except_bind_error]⟩
      | ok m =>
        have hfi := format_ingredients_str_error _ hex
        exact ⟨.typeError, by
          simp [runParserPipeline, hm, convertCore, hfi, except_bind_ok,
            except_bind_error]⟩

/-- C9 witness: formatting the normalized `"1 cup flour"` entry raises
`TypeError`. -/
theorem claim_c9_witness :
    format_ingredients [{ name := "flour", amount := PyVal.str "1", unit := "cup" }] =
      .error .typeError :=
  claim_c9_string_amount_type_error.2.1 _
    ⟨{ name := "flour", amount := PyVal.str "1", unit := "cup" },
      List.mem_singleton_self _, ⟨"1", rfl, by decide⟩, by decide⟩

/-! ## C2 -/

/-- Photos list of a conversion result (empty on failure). -/
def convPhotos (r : Except PyErr ConversionOutput) : List String :=
  match r with
  | .ok o => o.photos
  | .error _ => []

/-- Source payloads of the image files a conversion wrote (empty on
failure). -/
def convSavedSources (r : Except PyErr ConversionOutput) : List String :=
  match r with
  | .ok o => o.savedImages.map (fun s => s.src.data)
  | .error _ => []

/-- Every image the crumb parser returns has a payload free of the
truncation sentinel. -/
theorem crumb_images_no_sentinel (r : CrumbRecipe) :
    ∀ img ∈ crumb_get_images r, strContainsSub img.data truncSentinel = false := by
  intro img hmem
  unfold crumb_get_images at hmem
  obtain ⟨p, -, hp⟩ := List.mem_filterMap.mp hmem
  by_cases hc : (p.2 != "" && !(strContainsSub p.2 truncSentinel)) = true
  · rw [if_pos hc] at hp
    have he := Option.some.inj hp
    subst he
    simp only [Bool.and_eq_true, Bool.not_eq_true'] at hc
    exact hc.2
  · rw [if_neg hc] at hp
    exact absurd hp (by simp)

/-- A saved image records the source entry it was decoded from. -/
theorem saveImage_src (img : ImageData) (si : SavedImage)
    (h : saveImage img = some si) : si.src = img := by
  unfold saveImage at h
  split at h
  · split at h
    · cases Option.some.inj h
      rfl
    · exact absurd h (by simp)
  · exact absurd h (by simp)

/-- C2 (counterexample): for the flat-text variant nothing filters the
truncation sentinel: a base64 payload containing the sentinel whose
alphabet characters still form a valid stream is decoded and written — the
conversion succeeds, the file appears under `images/` and a `photos:` entry
is emitted for it. -/
theorem claim_c2_counterexample :
    strContainsSub "AAAAtruncated for LLM contextAB" truncSentinel = true
    ∧ convPhotos (convert_to_markdown defaultRegistry "r.paprikarecipe"
        (.paprika { name := "R", photo_data := "AAAAtruncated for LLM contextAB" }))
        = ["images/R.jpg"]
    ∧ convSavedSources (convert_to_markdown defaultRegistry "r.paprikarecipe"
        (.paprika { name := "R", photo_data := "AAAAtruncated for LLM contextAB" }))
        = ["AAAAtruncated for LLM contextAB"] := by
  exact ⟨rfl, rfl, rfl⟩

/-- C2 (amended): for the structured-JSON variant the guarantee holds —
every image file a successful conversion writes was decoded from a payload
that does not contain the truncation sentinel, and the `photos:` entries
are exactly the relative paths of those files. The flat-text variant
performs no sentinel filtering. -/
theorem claim_c2_amended (fp : String) (raw : CrumbRecipe)
    (out : ConversionOutput)
    (h : convert_to_markdown defaultRegistry fp (.crumb raw) = .ok out) :
    (∀ si ∈ out.savedImages, strContainsSub si.src.data truncSentinel = false)
    ∧ out.photos = out.savedImages.map (fun s => s.relpath) := by
  unfold convert_to_markdown at h
  cases hres : get_parser_for_extension defaultRegistry (get_file_extension fp) with
  | none => rw [hres] at h; exact absurd h (by simp)
  | some k =>
    rw [hres] at h
    cases k with
    | paprika => exact absurd h (by simp [runParserPipeline])
    | crumb =>
      simp only [runParserPipeline, convertCore] at h
      cases hfi : format_ingredients (crumb_get_ingredients raw) with
      | error e =>
        rw [hfi] at h
        exact absurd h (by simp [except_bind_error])
      | ok lines =>
        rw [hfi] at h
        simp only [except_bind_ok, pure, Except.pure, Except.ok.injEq] at h
        subst h
        refine ⟨?_, rfl⟩
        intro si hsi
        obtain ⟨img, himg, hsave⟩ := List.mem_filterMap.mp hsi
        rw [saveImage_src img si hsave]
        exact crumb_images_no_sentinel raw img himg

/-- C2 witness: a successful structured-variant conversion with one valid
image, whose photo paths are the saved images' relative paths. -/
theorem claim_c2_amended_witness :
    ({ mdFilename := "A.md", ingredientLines := [], directions := "",
       savedImages := [⟨⟨"QUJD", "A_0.jpg", .base64⟩, "images/A_0.jpg", [65, 66, 67]⟩],
       photos := ["images/A_0.jpg"],
       meta := { source_url := "", cook_time := "0 minutes", difficulty := "",
                 servings := .str "", notes := "", nutrition_info := "" } }
      : ConversionOutput).photos =
    ({ mdFilename := "A.md", ingredientLines := [], directions := "",
       savedImages := [⟨⟨"QUJD", "A_0.jpg", .base64⟩, "images/A_0.jpg", [65, 66, 67]⟩],
       photos := ["images/A_0.jpg"],
       meta := { source_url := "", cook_time := "0 minutes", difficulty := "",
                 servings := .str "", notes := "", nutrition_info := "" } }
      : ConversionOutput).savedImages.map (fun s => s.relpath) :=
  (claim_c2_amended "r.crumb" { name := "A", images := ["QUJD"] }
    { mdFilename := "A.md", ingredientLines := [], directions := "",
      savedImages := [⟨⟨"QUJD", "A_0.jpg", .base64⟩, "images/A_0.jpg", [65, 66, 67]⟩],
      photos := ["images/A_0.jpg"],
      meta := { source_url := "", cook_time := "0 minutes", difficulty := "",
                servings := .str "", notes := "", nutrition_info := "" } }
    rfl).2

/-! ## C5 -/

/-- Filtering one key class through an ordered insert: the inserted element
lands in front of its key class (it is placed before the first element with
a key not smaller than its own), all other key classes are untouched. -/
theorem filter_orderedInsert {α : Type} (key : α → Int) (k : Int) (x : α) :
    ∀ L : List α,
      (List.orderedInsert (fun a b => key a ≤ key b) x L).filter
          (fun y => key y == k)
        = if key x == k then x :: L.filter (fun y => key y == k)
          else L.filter (fun y => key y == k) := by
  intro L
  induction L with
  | nil => by_cases hx : key x == k <;> simp [List.orderedInsert, hx]
  | cons y ys ih =>
    show (if key x ≤ key y then x :: y :: ys
          else y :: List.orderedInsert (fun a b => key a ≤ key b) x ys).filter
        (fun y => key y == k) = _
    by_cases hxy : key x ≤ key y
    · rw [if_pos hxy]
      by_cases hx : key x == k <;> by_cases hy : key y == k <;>
        simp [List.filter_cons, hx, hy]
    · rw [if_neg hxy]
      by_cases hx : key x == k <;> by_cases hy : key y == k
      · exfalso
        have h1 : key x = k := by simpa using hx
        have h2 : key y = k := by simpa using hy
        omega
      all_goals simp [List.filter_cons, hx, hy, ih]

/-- Stability of the embedded sort: within every key class the sorted list
keeps the input order. -/
theorem pySortedByKey_stable {α : Type} (key : α → Int) (k : Int) :
    ∀ l : List α,
      (pySortedByKey key l).filter (fun y => key y == k)
        = l.filter (fun y => key y == k) := by
  intro l
  induction l with
  | nil => rfl
  | cons x xs ih =>
    show (List.orderedInsert (fun a b => key a ≤ key b) x
        (List.insertionSort (fun a b => key a ≤ key b) xs)).filter
        (fun y => key y == k) = _
    rw [filter_orderedInsert]
    simp only [pySortedByKey] at ih
    by_cases hx : key x == k <;> simp [List.filter_cons, hx, ih]

/-- C5 (confirmed): the normalized crumb ingredient sequence is the
normalization of the `order`-sorted input (key default 0 when absent): the
sorted sequence is a permutation of the input, its keys ascend, and ties
are stable — within every key class the input order is preserved. -/
theorem claim_c5_stable_order_sort (raw : CrumbRecipe) :
    crumb_get_ingredients raw =
      (pySortedByKey crumbIngKey raw.ingredients).map normalizeCrumbIngredient
    ∧ (pySortedByKey crumbIngKey raw.ingredients).Perm raw.ingredients
    ∧ (pySortedByKey crumbIngKey raw.ingredients).Pairwise
        (fun a b => crumbIngKey a ≤ crumbIngKey b)
    ∧ ∀ k : Int,
        (pySortedByKey crumbIngKey raw.ingredients).filter
            (fun x => crumbIngKey x == k)
          = raw.ingredients.filter (fun x => crumbIngKey x == k) := by
  refine ⟨rfl, List.perm_insertionSort _ _, ?_, fun k => pySortedByKey_stable _ k _⟩
  haveI : IsTotal CrumbIngredient (fun a b => crumbIngKey a ≤ crumbIngKey b) :=
    ⟨fun a b => Int.le_total _ _⟩
  haveI : IsTrans CrumbIngredient (fun a b => crumbIngKey a ≤ crumbIngKey b) :=
    ⟨fun _ _ _ h1 h2 => le_trans h1 h2⟩
  exact List.sorted_insertionSort _ raw.ingredients

/-- C5 witness: the stable-sort characterization at a concrete two-element
recipe whose entries arrive in reversed `order`. -/
theorem claim_c5_witness :
    crumb_get_ingredients
      { ingredients := [{ order := some 2, ingredientName := "b",
                          amount := .int 1, quantityType := "" },
                        { order := some 1, ingredientName := "a",
                          amount := .int 1, quantityType := "" }] } =
      (pySortedByKey crumbIngKey
        [{ order := some 2, ingredientName := "b",
           amount := .int 1, quantityType := "" },
         { order := some 1, ingredientName := "a",
           amount := .int 1, quantityType := "" }]).map normalizeCrumbIngredient :=
  (claim_c5_stable_order_sort
    { ingredients := [{ order := some 2, ingredientName := "b",
                        amount := .int 1, quantityType := "" },
                      { order := some 1, ingredientName := "a",
                        amount := .int 1, quantityType := "" }] }).1

end Cookdown
